import Mathlib

/-!
Verification of the upload workflow of `api/upload.go` (package `api` of the
gphotosuploader repository).

The file embeds the data model (`UploadOptions`, `Upload`, `UploadResult`),
the constructor `NewUpload`, the identifier extraction
(`RegexUploadedImageURL` / `getImageIDFromURL`), the accessor
`UploadResult.URLString`, and the four-step method `Upload.Upload`.

The bodies of the five remote calls (`requestUploadURL`, `uploadFile`,
`enablePhoto`, `moveToAlbum`, `createAlbum`) live outside the verified
source; they are modelled as an oracle `StepEnv` giving each call's outcome,
and every theorem quantifies over all oracles.  Current time is likewise a
parameter (`nowString`, `nowUnix`) of `NewUpload`.
-/

/-- One remote step of the upload workflow, in the order the code can invoke
them.  Used to record which steps `Upload.Upload` actually performed. -/
inductive Step where
  | requestUploadURL
  | uploadFile
  | enablePhoto
  | moveToAlbum
  | createAlbum
deriving DecidableEq

/-- `UploadOptions` of `api/upload.go`.  `Stream` is the `io.Reader`
reference, modelled only as present (`some ()`) or `nil` (`none`): the bytes
never influence the control flow being verified.  `FileSize` and `Timestamp`
are Go `int64` values; overflow plays no role in any claim, so they are
embedded as `Int`.  A Go struct field that the caller leaves unset holds the
zero value (`""` for strings, `0` for integers, `nil` for the reader). -/
structure UploadOptions where
  Stream : Option Unit
  FileSize : Int
  Name : String
  Timestamp : Int
  AlbumId : String
  AlbumName : String
deriving DecidableEq

/-- `Upload` of `api/upload.go`: the single-use workflow object.  The
`Credentials` (cookie-based session state) are opaque to every claim and
embedded as `Unit`.  In Go, `Options` is a pointer that aliases the
caller-supplied struct, so after `NewUpload` the caller observes exactly the
struct stored here. -/
structure Upload where
  Options : UploadOptions
  Credentials : Unit
  url : String
  idToMoveIntoAlbum : String
deriving DecidableEq

/-- Error message produced by `NewUpload` for a `nil` stream. -/
def errStreamNil : String := "the stream of the UploadOptions is nil"

/-- Error message produced by `NewUpload` for a non-positive file size. -/
def errFileSize : String := "the fileSize of the UploadOptions is <= 0"

/-- `NewUpload` of `api/upload.go`.  `nowString` stands for
`time.Now().String()` and `nowUnix` for `time.Now().Unix()`.  The function
performs no remote call: it only validates and fills defaults, mutating the
caller-supplied options struct in place (the mutated struct is the one
returned inside the `Upload`, which aliases the caller's value). -/
def NewUpload (options : UploadOptions) (credentials : Unit)
    (nowString : String) (nowUnix : Int) : Except String Upload :=
  if options.Stream = none then
    .error errStreamNil
  else if options.FileSize ≤ 0 then
    .error errFileSize
  else
    let options := if options.Name = "" then { options with Name := nowString } else options
    let options := if options.Timestamp < 0 then { options with Timestamp := nowUnix } else options
    .ok { Options := options, Credentials := credentials, url := "", idToMoveIntoAlbum := "" }

/-- The literal text preceding the capture group of `RegexUploadedImageURL`
(`^https:\/\/lh3\.googleusercontent\.com\/([\w-]+)$`). -/
def uploadedImageURLBase : String := "https://lh3.googleusercontent.com/"

/-- Character class `[\w-]` of the capture group: Go RE2 `\w` is ASCII
letters, digits and underscore; plus the hyphen. -/
def isWordOrHyphen (c : Char) : Bool :=
  c.isAlphanum || c = '_' || c = '-'

/-- Drops an expected literal run of characters from the front of a string,
returning the remainder when the literal is present. -/
def dropLiteral : List Char → List Char → Option (List Char)
  | [], cs => some cs
  | _ :: _, [] => none
  | p :: ps, c :: cs => if c = p then dropLiteral ps cs else none

/-- `RegexUploadedImageURL.FindStringSubmatch`, specialised to the anchored
pattern `^https:\/\/lh3\.googleusercontent\.com\/([\w-]+)$`: because of the
anchors the pattern matches iff the whole string is the base followed by one
or more word-or-hyphen characters, and then the submatch list has length two
with the captured group second.  `none` models the `nil` result (length 0). -/
def RegexUploadedImageURL.findStringSubmatch (URL : String) : Option String :=
  match dropLiteral uploadedImageURLBase.data URL.data with
  | none => none
  | some rest =>
      if rest.isEmpty then none
      else if rest.all isWordOrHyphen then some (String.mk rest)
      else none

/-- Error message of `getImageIDFromURL` when the pattern does not match. -/
def errNoImageID : String := "url doesn\x27t contain the image id"

/-- `getImageIDFromURL` of `api/upload.go`: the submatch list has length 2
exactly when the pattern matched, otherwise the recognised error is
returned. -/
def getImageIDFromURL (URL : String) : Except String String :=
  match RegexUploadedImageURL.findStringSubmatch URL with
  | none => .error errNoImageID
  | some id => .ok id

/-- `UploadResult` of `api/upload.go`. -/
structure UploadResult where
  Uploaded : Bool
  ImageID : String
  ImageUrl : String
  AlbumID : String
deriving DecidableEq

/-- `UploadResult.URLString`: reconstructs the image URL from the stored
identifier (`fmt.Sprintf` with the fixed base). -/
def UploadResult.URLString (ur : UploadResult) : String :=
  uploadedImageURLBase ++ ur.ImageID

/-- Modelled from the spec: the outcomes of the remote HTTP calls, whose
bodies (`requestUploadURL`, `uploadFile`, `enablePhoto`, `moveToAlbum`,
`createAlbum`) are outside the verified source.  Each field is the outcome
the call would produce: step 1 yields the upload URL, step 2 maps that URL
to the upload token, step 3 maps the token to the enabling response URL,
`moveToAlbum` takes the album id (its outcome is discarded by the caller),
and `createAlbum` maps the album name to the created album's id. -/
structure StepEnv where
  requestUploadURL : Except String String
  uploadFile : String → Except String String
  enablePhoto : String → Except String String
  moveToAlbum : String → Except String Unit
  createAlbum : String → Except String String

/-- Warning logged when the enabling request itself fails. -/
def warnEnablePhoto : String :=
  "[WARNING] The file has been uploaded, but the image url in the reply was not found. The image may not appear."

/-- Warning logged when the enabling response URL carries no image id. -/
def warnNoImageID : String :=
  "[WARNING] the file has been uploaded, but the image URL does not contain its id. The image may not appear."

/-- Warning logged when album creation fails. -/
def warnAlbumNotCreated : String :=
  "[WARNING] the file has been uploaded, but the album hasn\x27t been created."

/-- Error message replacing a step-1 failure. -/
def errNoUploadURL : String := "can\x27t get an upload url"

/-- Error message replacing a step-2 failure. -/
def errUploadFile : String :=
  "can\x27t upload file to the url obtained from the previously request"

/-- Everything observable about one run of `Upload.Upload`: the returned
`UploadResult`, the returned error (`none` = `nil`), the warnings printed
via `log.Println`, and the remote steps invoked, in order. -/
structure UploadOutput where
  result : UploadResult
  error : Option String
  warnings : List String
  invoked : List Step
deriving DecidableEq

/-- `Upload.Upload` of `api/upload.go`, the four-step workflow, with the
remote-call outcomes supplied by `env`.  Mirrors the source line by line:
step-1 and step-2 failures abort with `Uploaded = false` and a fresh error
message; a step-3 failure returns `Uploaded = true` and the call's own
error; an extraction failure returns the raw URL and the extraction error;
`moveToAlbum` runs fire-and-forget when `AlbumId` is set; a `createAlbum`
failure returns the partial result and the call's own error; otherwise the
full result is returned with a `nil` error. -/
def Upload.Upload (u : Upload) (env : StepEnv) : UploadOutput :=
  match env.requestUploadURL with
  | .error _ =>
      { result := ⟨false, "", "", ""⟩, error := some errNoUploadURL,
        warnings := [], invoked := [.requestUploadURL] }
  | .ok url =>
      match env.uploadFile url with
      | .error _ =>
          { result := ⟨false, "", "", ""⟩, error := some errUploadFile,
            warnings := [], invoked := [.requestUploadURL, .uploadFile] }
      | .ok token =>
          match env.enablePhoto token with
          | .error e =>
              { result := ⟨true, "", "", ""⟩, error := some e,
                warnings := [warnEnablePhoto],
                invoked := [.requestUploadURL, .uploadFile, .enablePhoto] }
          | .ok uploadedImageURL =>
              match getImageIDFromURL uploadedImageURL with
              | .error e =>
                  { result := ⟨true, "", uploadedImageURL, ""⟩, error := some e,
                    warnings := [warnNoImageID],
                    invoked := [.requestUploadURL, .uploadFile, .enablePhoto] }
              | .ok uploadedImageID =>
                  let albumSteps := if u.Options.AlbumId ≠ "" then [Step.moveToAlbum] else []
                  if u.Options.AlbumName ≠ "" then
                    match env.createAlbum u.Options.AlbumName with
                    | .error e =>
                        { result := ⟨true, uploadedImageID, uploadedImageURL, ""⟩,
                          error := some e, warnings := [warnAlbumNotCreated],
                          invoked := [.requestUploadURL, .uploadFile, .enablePhoto]
                            ++ albumSteps ++ [Step.createAlbum] }
                    | .ok createdAlbumID =>
                        { result := ⟨true, uploadedImageID, uploadedImageURL, createdAlbumID⟩,
                          error := none, warnings := [],
                          invoked := [.requestUploadURL, .uploadFile, .enablePhoto]
                            ++ albumSteps ++ [Step.createAlbum] }
                  else
                    { result := ⟨true, uploadedImageID, uploadedImageURL, ""⟩,
                      error := none, warnings := [],
                      invoked := [.requestUploadURL, .uploadFile, .enablePhoto] ++ albumSteps }

/-! Helper lemmas about the identifier extraction. -/

theorem dropLiteral_some (ps : List Char) :
    ∀ cs rest, dropLiteral ps cs = some rest → cs = ps ++ rest := by
  induction ps with
  | nil =>
      intro cs rest h
      simp [dropLiteral] at h
      simp [h]
  | cons p ps ih =>
      intro cs rest h
      cases cs with
      | nil => simp [dropLiteral] at h
      | cons c cs =>
          by_cases hc : c = p
          · simp [dropLiteral, hc] at h
            subst hc
            simp [ih cs rest h]
          · simp [dropLiteral, hc] at h

theorem getImageIDFromURL_ok (u id : String)
    (h : getImageIDFromURL u = .ok id) : u = uploadedImageURLBase ++ id := by
  unfold getImageIDFromURL RegexUploadedImageURL.findStringSubmatch at h
  rcases hd : dropLiteral uploadedImageURLBase.data u.data with _ | rest
  · rw [hd] at h
    simp at h
  · rw [hd] at h
    by_cases he : rest.isEmpty
    · simp [he] at h
    · by_cases ha : rest.all isWordOrHyphen
      · simp [he, ha] at h
        apply String.ext
        rw [String.data_append, ← h]
        exact dropLiteral_some _ _ _ hd
      · simp [he, ha] at h

/-- C9: the extraction applied to
`"https://lh3.googleusercontent.com/AbC-123_xyz"` succeeds with exactly
`"AbC-123_xyz"`, and on every URL the extraction either succeeds or returns
the recognised error (it is total: no crash). -/
theorem getImageIDFromURL_spec :
    getImageIDFromURL "https://lh3.googleusercontent.com/AbC-123_xyz" = .ok "AbC-123_xyz"
      ∧ ∀ URL : String, (∃ id, getImageIDFromURL URL = .ok id)
        ∨ getImageIDFromURL URL = .error errNoImageID := by
  constructor
  · rfl
  · intro URL
    unfold getImageIDFromURL
    rcases RegexUploadedImageURL.findStringSubmatch URL with _ | id
    · right; rfl
    · left; exact ⟨id, rfl⟩

/-- C10: extraction and reconstruction round-trip — whenever
`getImageIDFromURL` succeeds on `u` with identifier `id`, `URLString` on any
`UploadResult` carrying that `ImageID` returns exactly `u`. -/
theorem URLString_roundtrip (u id : String) (ur : UploadResult)
    (h : getImageIDFromURL u = .ok id) (hid : ur.ImageID = id) :
    ur.URLString = u := by
  rw [UploadResult.URLString, hid, ← getImageIDFromURL_ok u id h]

/-- C10 witness: the round-trip at a concrete URL. -/
theorem URLString_roundtrip_witness :
    (UploadResult.mk true "AbC-123_xyz" "https://lh3.googleusercontent.com/AbC-123_xyz" "").URLString
      = "https://lh3.googleusercontent.com/AbC-123_xyz" :=
  URLString_roundtrip "https://lh3.googleusercontent.com/AbC-123_xyz" "AbC-123_xyz" _ rfl rfl

/-- C5: `NewUpload` rejects a `nil` stream or a non-positive byte length
with a validation error, whatever the other fields; no `Upload` object is
constructed.  `NewUpload` takes no `StepEnv`, so no network activity can
occur during validation. -/
theorem NewUpload_validation (options : UploadOptions) (credentials : Unit)
    (nowString : String) (nowUnix : Int)
    (h : options.Stream = none ∨ options.FileSize ≤ 0) :
    ∃ msg, NewUpload options credentials nowString nowUnix = .error msg := by
  rcases h with h | h
  · exact ⟨errStreamNil, by simp [NewUpload, h]⟩
  · by_cases hs : options.Stream = none
    · exact ⟨errStreamNil, by simp [NewUpload, hs]⟩
    · exact ⟨errFileSize, by simp [NewUpload, hs, h]⟩

/-- C5 witness: a concrete options value with a positive size but a `nil`
stream is rejected. -/
theorem NewUpload_validation_witness :
    ∃ msg, NewUpload ⟨none, 1, "n", 0, "", ""⟩ () "now" 7 = .error msg :=
  NewUpload_validation ⟨none, 1, "n", 0, "", ""⟩ () "now" 7 (Or.inl rfl)

/-- C6 counterexample: a missing (zero) timestamp is NOT replaced by the
current time — with current time 7 the accepted options keep timestamp 0,
refuting the claim that a missing timestamp defaults to the current time
(the code only replaces strictly negative timestamps). -/
theorem NewUpload_zero_timestamp_kept :
    NewUpload ⟨some (), 1, "n", 0, "", ""⟩ () "now" 7
      = .ok ⟨⟨some (), 1, "n", 0, "", ""⟩, (), "", ""⟩ ∧ (0 : Int) ≠ 7 :=
  ⟨rfl, by decide⟩

/-- C6 amended: for options accepted by `NewUpload`, an empty name is
replaced by the current-time string and a strictly negative timestamp by
the current time; a name already set, and any non-negative timestamp
(including the missing-value 0), keep their values, as do all other
fields. -/
theorem NewUpload_defaults (options : UploadOptions) (credentials : Unit)
    (nowString : String) (nowUnix : Int) (up : Upload)
    (h : NewUpload options credentials nowString nowUnix = .ok up) :
    (options.Name = "" → up.Options.Name = nowString)
      ∧ (options.Name ≠ "" → up.Options.Name = options.Name)
      ∧ (options.Timestamp < 0 → up.Options.Timestamp = nowUnix)
      ∧ (0 ≤ options.Timestamp → up.Options.Timestamp = options.Timestamp)
      ∧ up.Options.Stream = options.Stream
      ∧ up.Options.FileSize = options.FileSize
      ∧ up.Options.AlbumId = options.AlbumId
      ∧ up.Options.AlbumName = options.AlbumName := by
  unfold NewUpload at h
  by_cases h1 : options.Stream = none
  · simp [h1] at h
  · by_cases h2 : options.FileSize ≤ 0
    · simp [h1, h2] at h
    · by_cases hn : options.Name = "" <;> by_cases ht : options.Timestamp < 0 <;>
        simp [h1, h2, hn, ht] at h <;> subst h <;>
        simp [hn, ht] <;> omega

/-- C6 amended witness: an accepted options value with an empty name and a
negative timestamp receives the current-time defaults. -/
theorem NewUpload_defaults_witness :
    ((⟨some (), 1, "", -1, "", ""⟩ : UploadOptions).Name = ""
        → (Upload.mk ⟨some (), 1, "now", 7, "", ""⟩ () "" "").Options.Name = "now")
      ∧ ((-1 : Int) < 0
        → (Upload.mk ⟨some (), 1, "now", 7, "", ""⟩ () "" "").Options.Timestamp = 7) :=
  ⟨(NewUpload_defaults ⟨some (), 1, "", -1, "", ""⟩ () "now" 7 _ rfl).1,
   (NewUpload_defaults ⟨some (), 1, "", -1, "", ""⟩ () "now" 7 _ rfl).2.2.1⟩

/-- C7 counterexample: `NewUpload` modifies the caller-supplied options —
the Go code writes the defaults through the caller's pointer, so with an
empty name the caller's struct afterwards carries the current-time string,
not its original value. -/
theorem NewUpload_mutates_options :
    NewUpload ⟨some (), 1, "", 0, "", ""⟩ () "2017-06-05 09:00:00" 7
      = .ok ⟨⟨some (), 1, "2017-06-05 09:00:00", 0, "", ""⟩, (), "", ""⟩
      ∧ ("2017-06-05 09:00:00" : String) ≠ "" :=
  ⟨rfl, by decide⟩

/-- C7 amended: `NewUpload` modifies the caller-supplied options only to
fill defaults (empty name, negative timestamp); options with the name set
and a non-negative timestamp pass through `NewUpload` unmodified, and the
workflow run itself consumes the options without changing them. -/
theorem NewUpload_preserves_set_options (options : UploadOptions)
    (credentials : Unit) (nowString : String) (nowUnix : Int) (up : Upload)
    (hn : options.Name ≠ "") (ht : 0 ≤ options.Timestamp)
    (h : NewUpload options credentials nowString nowUnix = .ok up) :
    up.Options = options := by
  unfold NewUpload at h
  by_cases h1 : options.Stream = none
  · simp [h1] at h
  · by_cases h2 : options.FileSize ≤ 0
    · simp [h1, h2] at h
    · have ht' : ¬ options.Timestamp < 0 := by omega
      simp [h1, h2, hn, ht'] at h
      subst h
      rfl

/-- C7 amended witness: a fully-set options value is returned unchanged. -/
theorem NewUpload_preserves_set_options_witness :
    (Upload.mk ⟨some (), 1, "n", 5, "a", "b"⟩ () "" "").Options
      = ⟨some (), 1, "n", 5, "a", "b"⟩ :=
  NewUpload_preserves_set_options ⟨some (), 1, "n", 5, "a", "b"⟩ () "now" 7 _
    (by decide) (by decide) rfl

/-! Concrete oracles used by the witnesses below. -/

/-- Oracle in which every remote call succeeds. -/
def envAllOk : StepEnv :=
  { requestUploadURL := .ok "uploadurl"
    uploadFile := fun _ => .ok "token"
    enablePhoto := fun _ => .ok "https://lh3.googleusercontent.com/AbC-123_xyz"
    moveToAlbum := fun _ => .ok ()
    createAlbum := fun _ => .ok "ALBUM123" }

/-- Oracle in which step 1 fails. -/
def envStep1Fails : StepEnv :=
  { envAllOk with requestUploadURL := .error "boom" }

/-- Oracle in which step 2 fails. -/
def envStep2Fails : StepEnv :=
  { envAllOk with uploadFile := fun _ => .error "boom" }

/-- Oracle in which the enabling request fails. -/
def envEnableFails : StepEnv :=
  { envAllOk with enablePhoto := fun _ => .error "remote call failed" }

/-- Oracle in which album creation fails. -/
def envCreateAlbumFails : StepEnv :=
  { envAllOk with createAlbum := fun _ => .error "remote call failed" }

/-- Oracle in which the enabling response URL carries no extractable id. -/
def envBadImageURL : StepEnv :=
  { envAllOk with enablePhoto := fun _ => .ok "https://example.com/raw?x=1" }

/-- A workflow object with no album fields set. -/
def upNoAlbum : Upload := ⟨⟨some (), 1, "n", 0, "", ""⟩, (), "", ""⟩

/-- A workflow object with an album name set. -/
def upWithAlbumName : Upload := ⟨⟨some (), 1, "n", 0, "", "holiday"⟩, (), "", ""⟩

/-- C1: when steps 1–3 succeed, extraction succeeds and any requested album
creation succeeds (or no album name is set), `Upload.Upload` returns
`{Uploaded := true, ImageID, ImageUrl, AlbumID}` with a `nil` error, where
`AlbumID` is the created album's id when the create-album branch ran and
`""` otherwise; and every run with a `nil` error is of exactly that
shape. -/
theorem Upload_full_success (env : StepEnv) (up : Upload)
    (url token imgURL imgID : String)
    (h1 : env.requestUploadURL = .ok url)
    (h2 : env.uploadFile url = .ok token)
    (h3 : env.enablePhoto token = .ok imgURL)
    (h4 : getImageIDFromURL imgURL = .ok imgID) :
    (up.Options.AlbumName = "" →
        (up.Upload env).result = ⟨true, imgID, imgURL, ""⟩ ∧ (up.Upload env).error = none)
      ∧ (∀ aid, up.Options.AlbumName ≠ "" → env.createAlbum up.Options.AlbumName = .ok aid →
        (up.Upload env).result = ⟨true, imgID, imgURL, aid⟩ ∧ (up.Upload env).error = none)
      ∧ (∀ env2 up2, (Upload.Upload up2 env2).error = none →
        ∃ url2 token2 imgURL2 imgID2,
          env2.requestUploadURL = .ok url2
            ∧ env2.uploadFile url2 = .ok token2
            ∧ env2.enablePhoto token2 = .ok imgURL2
            ∧ getImageIDFromURL imgURL2 = .ok imgID2
            ∧ (up2.Upload env2).result
              = ⟨true, imgID2, imgURL2, (up2.Upload env2).result.AlbumID⟩
            ∧ ((up2.Options.AlbumName = "" ∧ (up2.Upload env2).result.AlbumID = "")
               ∨ (up2.Options.AlbumName ≠ ""
                  ∧ env2.createAlbum up2.Options.AlbumName
                    = .ok ((up2.Upload env2).result.AlbumID)))) := by
  refine ⟨?_, ?_, ?_⟩
  · intro hname
    simp [Upload.Upload, h1, h2, h3, h4, hname]
  · intro aid hname hca
    simp [Upload.Upload, h1, h2, h3, h4, hname, hca]
  · intro env2 up2 herr
    rcases hru : env2.requestUploadURL with e | url2
    · simp [Upload.Upload, hru] at herr
    rcases hf : env2.uploadFile url2 with e | token2
    · simp [Upload.Upload, hru, hf] at herr
    rcases he : env2.enablePhoto token2 with e | imgURL2
    · simp [Upload.Upload, hru, hf, he] at herr
    rcases hx : getImageIDFromURL imgURL2 with e | imgID2
    · simp [Upload.Upload, hru, hf, he, hx] at herr
    refine ⟨url2, token2, imgURL2, imgID2, by simp [hru], by simp [hf],
      by simp [he], by simp [hx], ?_⟩
    by_cases hname : up2.Options.AlbumName = ""
    · constructor
      · simp [Upload.Upload, hru, hf, he, hx, hname]
      · left
        constructor
        · exact hname
        · simp [Upload.Upload, hru, hf, he, hx, hname]
    · rcases hca : env2.createAlbum up2.Options.AlbumName with e | aid
      · simp [Upload.Upload, hru, hf, he, hx, hname, hca] at herr
      · constructor
        · simp [Upload.Upload, hru, hf, he, hx, hname, hca]
        · right
          constructor
          · exact hname
          · simp [Upload.Upload, hru, hf, he, hx, hname, hca]

/-- C1 witness: with an all-success oracle and no album fields, the result
is exactly the full-success record and the error is `nil`. -/
theorem Upload_full_success_witness :
    (upNoAlbum.Upload envAllOk).result
        = ⟨true, "AbC-123_xyz", "https://lh3.googleusercontent.com/AbC-123_xyz", ""⟩
      ∧ (upNoAlbum.Upload envAllOk).error = none :=
  (Upload_full_success envAllOk upNoAlbum "uploadurl" "token"
    "https://lh3.googleusercontent.com/AbC-123_xyz" "AbC-123_xyz"
    rfl rfl rfl rfl).1 rfl

/-- C2: once steps 1 and 2 succeeded, a failing enabling request yields
exactly `{Uploaded := true}` (no id, no URL), a warning and the non-`nil`
error; an enabling response whose URL carries no extractable id yields
exactly `{Uploaded := true, ImageUrl := raw}` (no id), a warning and a
non-`nil` error. -/
theorem Upload_enable_failure (env : StepEnv) (up : Upload) (url token : String)
    (h1 : env.requestUploadURL = .ok url)
    (h2 : env.uploadFile url = .ok token) :
    (∀ e, env.enablePhoto token = .error e →
        up.Upload env = ⟨⟨true, "", "", ""⟩, some e, [warnEnablePhoto],
          [.requestUploadURL, .uploadFile, .enablePhoto]⟩)
      ∧ (∀ imgURL e, env.enablePhoto token = .ok imgURL →
        getImageIDFromURL imgURL = .error e →
        up.Upload env = ⟨⟨true, "", imgURL, ""⟩, some e, [warnNoImageID],
          [.requestUploadURL, .uploadFile, .enablePhoto]⟩) := by
  constructor
  · intro e he
    simp [Upload.Upload, h1, h2, he]
  · intro imgURL e he hx
    simp [Upload.Upload, h1, h2, he, hx]

/-- C2 witness: the two partial results at concrete failing oracles. -/
theorem Upload_enable_failure_witness :
    upNoAlbum.Upload envEnableFails
        = ⟨⟨true, "", "", ""⟩, some "remote call failed", [warnEnablePhoto],
          [.requestUploadURL, .uploadFile, .enablePhoto]⟩
      ∧ upNoAlbum.Upload envBadImageURL
        = ⟨⟨true, "", "https://example.com/raw?x=1", ""⟩, some errNoImageID,
          [warnNoImageID], [.requestUploadURL, .uploadFile, .enablePhoto]⟩ :=
  ⟨(Upload_enable_failure envEnableFails upNoAlbum "uploadurl" "token" rfl rfl).1
      "remote call failed" rfl,
   (Upload_enable_failure envBadImageURL upNoAlbum "uploadurl" "token" rfl rfl).2
      "https://example.com/raw?x=1" errNoImageID rfl rfl⟩

/-- C3: when step 1 or step 2 fails, the run reports `Uploaded = false`
with a non-`nil` error, and neither the enabling request nor any album
step is ever invoked. -/
theorem Upload_early_failure (env : StepEnv) (up : Upload)
    (h : (∃ e, env.requestUploadURL = .error e)
      ∨ ∃ url e, env.requestUploadURL = .ok url ∧ env.uploadFile url = .error e) :
    (up.Upload env).result.Uploaded = false
      ∧ (up.Upload env).error ≠ none
      ∧ Step.enablePhoto ∉ (up.Upload env).invoked
      ∧ Step.moveToAlbum ∉ (up.Upload env).invoked
      ∧ Step.createAlbum ∉ (up.Upload env).invoked := by
  rcases h with ⟨e, he⟩ | ⟨url, e, hu, he⟩
  · refine ⟨?_, ?_, ?_, ?_, ?_⟩ <;> simp [Upload.Upload, he]
  · refine ⟨?_, ?_, ?_, ?_, ?_⟩ <;> simp [Upload.Upload, hu, he]

/-- C3 witness: a step-1 failure at a concrete oracle. -/
theorem Upload_early_failure_witness :
    (upNoAlbum.Upload envStep1Fails).result.Uploaded = false
      ∧ (upNoAlbum.Upload envStep1Fails).error ≠ none
      ∧ Step.enablePhoto ∉ (upNoAlbum.Upload envStep1Fails).invoked
      ∧ Step.moveToAlbum ∉ (upNoAlbum.Upload envStep1Fails).invoked
      ∧ Step.createAlbum ∉ (upNoAlbum.Upload envStep1Fails).invoked :=
  Upload_early_failure envStep1Fails upNoAlbum (Or.inl ⟨"boom", rfl⟩)

/-- C4: with steps 1–3 and extraction successful and an album name set, a
failing album creation returns `{Uploaded := true, ImageID, ImageUrl}` with
an empty `AlbumID` and the non-`nil` underlying error, while a successful
creation puts the created album's id into the result. -/
theorem Upload_album_create (env : StepEnv) (up : Upload)
    (url token imgURL imgID : String)
    (h1 : env.requestUploadURL = .ok url)
    (h2 : env.uploadFile url = .ok token)
    (h3 : env.enablePhoto token = .ok imgURL)
    (h4 : getImageIDFromURL imgURL = .ok imgID)
    (hname : up.Options.AlbumName ≠ "") :
    (∀ e, env.createAlbum up.Options.AlbumName = .error e →
        (up.Upload env).result = ⟨true, imgID, imgURL, ""⟩
          ∧ (up.Upload env).error = some e
          ∧ (up.Upload env).warnings = [warnAlbumNotCreated])
      ∧ (∀ aid, env.createAlbum up.Options.AlbumName = .ok aid →
        (up.Upload env).result = ⟨true, imgID, imgURL, aid⟩
          ∧ (up.Upload env).error = none) := by
  constructor
  · intro e hca
    refine ⟨?_, ?_, ?_⟩ <;> simp [Upload.Upload, h1, h2, h3, h4, hname, hca]
  · intro aid hca
    constructor <;> simp [Upload.Upload, h1, h2, h3, h4, hname, hca]

/-- C4 witness: album creation failing and succeeding at concrete
oracles. -/
theorem Upload_album_create_witness :
    ((upWithAlbumName.Upload envCreateAlbumFails).result
        = ⟨true, "AbC-123_xyz", "https://lh3.googleusercontent.com/AbC-123_xyz", ""⟩
      ∧ (upWithAlbumName.Upload envCreateAlbumFails).error = some "remote call failed"
      ∧ (upWithAlbumName.Upload envCreateAlbumFails).warnings = [warnAlbumNotCreated])
      ∧ ((upWithAlbumName.Upload envAllOk).result
        = ⟨true, "AbC-123_xyz", "https://lh3.googleusercontent.com/AbC-123_xyz", "ALBUM123"⟩
      ∧ (upWithAlbumName.Upload envAllOk).error = none) :=
  ⟨(Upload_album_create envCreateAlbumFails upWithAlbumName "uploadurl" "token"
      "https://lh3.googleusercontent.com/AbC-123_xyz" "AbC-123_xyz"
      rfl rfl rfl rfl (by decide)).1 "remote call failed" rfl,
   (Upload_album_create envAllOk upWithAlbumName "uploadurl" "token"
      "https://lh3.googleusercontent.com/AbC-123_xyz" "AbC-123_xyz"
      rfl rfl rfl rfl (by decide)).2 "ALBUM123" rfl⟩

/-- C8 counterexample: a step-3 failure and a step-4 failure with the same
underlying remote error both make `Upload.Upload` return exactly that
underlying error, forwarded verbatim — the two phases are not
distinguishable from the returned error alone. -/
theorem Upload_error_verbatim :
    (upNoAlbum.Upload envEnableFails).error = some "remote call failed"
      ∧ (upWithAlbumName.Upload envCreateAlbumFails).error = some "remote call failed" :=
  ⟨rfl, rfl⟩

/-- C8 amended: a step-1 failure is replaced by the fixed message
`errNoUploadURL` and a step-2 failure by the fixed, distinct message
`errUploadFile` (neither forwards the underlying error); but a step-3
failure, an identifier-extraction failure, and an album-creation failure
are forwarded verbatim as the underlying error. -/
theorem Upload_error_propagation (env : StepEnv) (up : Upload) :
    (∀ e, env.requestUploadURL = .error e →
        (up.Upload env).error = some errNoUploadURL)
      ∧ (∀ url e, env.requestUploadURL = .ok url → env.uploadFile url = .error e →
        (up.Upload env).error = some errUploadFile)
      ∧ (∀ url token e, env.requestUploadURL = .ok url → env.uploadFile url = .ok token →
        env.enablePhoto token = .error e → (up.Upload env).error = some e)
      ∧ (∀ url token imgURL e, env.requestUploadURL = .ok url →
        env.uploadFile url = .ok token → env.enablePhoto token = .ok imgURL →
        getImageIDFromURL imgURL = .error e → (up.Upload env).error = some e)
      ∧ (∀ url token imgURL imgID e, env.requestUploadURL = .ok url →
        env.uploadFile url = .ok token → env.enablePhoto token = .ok imgURL →
        getImageIDFromURL imgURL = .ok imgID → up.Options.AlbumName ≠ "" →
        env.createAlbum up.Options.AlbumName = .error e →
        (up.Upload env).error = some e)
      ∧ errNoUploadURL ≠ errUploadFile := by
  refine ⟨?_, ?_, ?_, ?_, ?_, by decide⟩
  · intro e he
    simp [Upload.Upload, he]
  · intro url e hu he
    simp [Upload.Upload, hu, he]
  · intro url token e hu ht he
    simp [Upload.Upload, hu, ht, he]
  · intro url token imgURL e hu ht he hx
    simp [Upload.Upload, hu, ht, he, hx]
  · intro url token imgURL imgID e hu ht he hx hname hca
    simp [Upload.Upload, hu, ht, he, hx, hname, hca]

/-- C8 amended witness: the step-1 replacement message at a concrete
oracle. -/
theorem Upload_error_propagation_witness :
    (upNoAlbum.Upload envStep1Fails).error = some errNoUploadURL :=
  (Upload_error_propagation envStep1Fails upNoAlbum).1 "boom" rfl
